import Mathlib

/-!
# Verification of the RIVA ChatGPT streaming relay

A shallow embedding in Lean 4 of the streaming-relay core of the
repository:

* `src/app/bedrock_client.py` — the Model Backend Adapter and Delta
  Decoder (`stream_chat`, `_format_messages_for_anthropic`,
  `_create_bedrock_payload`, and the `ClientError` classification);
* `src/app/main.py` — the SSE Relay (`generate_chat_stream` inside the
  `/chat` endpoint);
* `src/app/schemas.py` — request validation (`ChatRequest`, `Message`).

Conventions of the embedding:

* Time is modelled in whole seconds as `Nat`.  Python's
  `(current_time - last_heartbeat).seconds` is the seconds *component*
  of a `timedelta`, i.e. for a non-negative difference it equals the
  total number of elapsed whole seconds modulo 86400; the embedding
  writes `(t - lastHb) % 86400` accordingly.
* The upstream Bedrock event stream is modelled as a `List` of already
  network-delivered frames; laziness only matters for which prefix is
  consumed, which the relay model tracks explicitly.
* Python exceptions raised while pulling the next chunk from the
  `stream_chat` generator are modelled by an `UpstreamOutcome` value
  that takes effect when the chunk list is exhausted without an earlier
  `break`.
-/

namespace RivaChat

/-! ## Delta Decoder: the chunk-processing loop of `stream_chat`
(`bedrock_client.py` lines 184–216) -/

/-- The structured payload obtained from `json.loads(chunk['bytes'])`:
the fields the decoder inspects.  `deltaType` models
`chunk_data.get('delta', {}).get('type')` (`none` when absent),
`deltaText` models `chunk_data.get('delta', {}).get('text', '')`
(absent text defaults to the empty string), `errMessage` models
`chunk_data.get('message', 'Unknown streaming error')` with the default
already applied. -/
structure ChunkData where
  type : String
  deltaType : Option String
  deltaText : String
  errMessage : String
deriving DecidableEq

/-- One event of the upstream Bedrock response stream as seen by the
decoder loop: an event with no `chunk` key (skipped), a chunk whose
bytes fail `json.loads` (→ `except json.JSONDecodeError: continue`), or
a successfully parsed chunk. -/
inductive RawFrame where
  | noChunk : RawFrame
  | unparseable : RawFrame
  | parsed : ChunkData → RawFrame
deriving DecidableEq

/-- The text chunks yielded by the `for event in stream:` loop of
`stream_chat` (`bedrock_client.py` 184–216).  Faithful points:

* `content_block_delta` frames whose delta is a `text_delta` with
  non-empty text are yielded; empty or absent text yields nothing;
* `message_stop` breaks out of the loop (the rest of the stream is not
  read);
* an `error` frame executes `raise BedrockStreamingError(...)`, but
  that raise sits inside the same `try` whose `except Exception as e:
  continue` clause (lines 214–216) catches `BedrockStreamingError`, so
  the loop merely logs and continues — the error marker is swallowed;
* unparseable frames hit `except json.JSONDecodeError: continue`;
* any other frame type falls through the `if/elif` chain and the loop
  continues. -/
def decodeLoop : List RawFrame → List String
  | [] => []
  | RawFrame.noChunk :: rest => decodeLoop rest
  | RawFrame.unparseable :: rest => decodeLoop rest
  | RawFrame.parsed c :: rest =>
    if c.type = "content_block_delta" then
      if c.deltaType = some "text_delta" then
        if c.deltaText = "" then decodeLoop rest
        else c.deltaText :: decodeLoop rest
      else decodeLoop rest
    else if c.type = "message_stop" then []
    else if c.type = "error" then decodeLoop rest
    else decodeLoop rest

/-- A well-formed content-delta frame carrying text `t`. -/
def deltaFrame (t : String) : RawFrame :=
  RawFrame.parsed ⟨"content_block_delta", some "text_delta", t, "Unknown streaming error"⟩

/-- The stream-end marker frame (`{"type": "message_stop"}`). -/
def stopFrame : RawFrame :=
  RawFrame.parsed ⟨"message_stop", none, "", "Unknown streaming error"⟩

/-- An in-band error marker frame (`{"type": "error", "message": m}`). -/
def errorFrame (m : String) : RawFrame :=
  RawFrame.parsed ⟨"error", none, "", m⟩

example : decodeLoop [deltaFrame "Hi", stopFrame, deltaFrame "late"] = ["Hi"] := by decide

example : decodeLoop [deltaFrame "Hi", errorFrame "boom", deltaFrame "more", stopFrame]
    = ["Hi", "more"] := by decide

example : decodeLoop [RawFrame.unparseable, deltaFrame "a", RawFrame.noChunk, deltaFrame ""]
    = ["a"] := by decide

/-! ## Model Backend Adapter: message formatting, payload construction,
and the opening phase of `stream_chat` (`bedrock_client.py` 74–166) -/

/-- An inbound message as a raw dictionary: `role`/`content` are `none`
when the corresponding key is missing.  The code applies
`str(message['content'])`, so content is modelled directly as a string
value. -/
structure RawMessage where
  role : Option String
  content : Option String
deriving DecidableEq

/-- A message after `_format_messages_for_anthropic`: both fields
present, role one of `user`/`assistant`/`system`. -/
structure FormattedMessage where
  role : String
  content : String
deriving DecidableEq

/-- `_format_messages_for_anthropic` (`bedrock_client.py` 74–105):
entries missing `role` or `content` are skipped; a role outside
`['user', 'assistant', 'system']` is coerced to `'user'`. -/
def formatMessagesForAnthropic : List RawMessage → List FormattedMessage
  | [] => []
  | m :: rest =>
    match m.role, m.content with
    | some r, some c =>
      let role := if r = "user" ∨ r = "assistant" ∨ r = "system" then r else "user"
      ⟨role, c⟩ :: formatMessagesForAnthropic rest
    | _, _ => formatMessagesForAnthropic rest

/-- The JSON payload assembled by `_create_bedrock_payload`
(`bedrock_client.py` 107–131), before serialization. -/
structure BedrockPayload where
  anthropicVersion : String
  maxTokens : Int
  temperature : ℚ
  messages : List FormattedMessage
deriving DecidableEq

/-- `_create_bedrock_payload` (`bedrock_client.py` 107–131): clamps
`temperature` via `max(0.0, min(1.0, temperature))` and `max_tokens`
via `max(1, min(max_tokens, 4096))`, then packages the envelope.
Python floats are modelled as rationals. -/
def createBedrockPayload (messages : List FormattedMessage)
    (temperature : ℚ) (maxTokens : Int) : BedrockPayload :=
  { anthropicVersion := "bedrock-2023-05-31"
    maxTokens := max 1 (min maxTokens 4096)
    temperature := max 0 (min 1 temperature)
    messages := messages }

/-- Outcome of the opening phase of `stream_chat`
(`bedrock_client.py` 149–166), with the Bedrock client assumed to be
created successfully (client-creation failure raises
`BedrockClientError` from the environment, independent of the message
list):

* `emptyStream`: `if not messages: return` — the generator ends
  immediately, yielding nothing and raising nothing;
* `noValidInput`: formatting left no valid message, so
  `BedrockStreamingError('No valid messages provided')` is raised;
* `opened`: the upstream call is issued with the given formatted
  messages and payload. -/
inductive OpenResult where
  | emptyStream : OpenResult
  | noValidInput : OpenResult
  | opened : List FormattedMessage → BedrockPayload → OpenResult
deriving DecidableEq

/-- Whether the opening phase failed with a backend error. -/
def OpenResult.isBackendError : OpenResult → Bool
  | OpenResult.noValidInput => true
  | _ => false

/-- The opening phase of `stream_chat` (`bedrock_client.py` 149–166):
empty input returns an empty stream; otherwise messages are formatted,
an empty formatted list raises `BedrockStreamingError`, and a
non-empty one is sent upstream with the clamped payload. -/
def streamChatOpen (messages : List RawMessage) (temperature : ℚ)
    (maxTokens : Int) : OpenResult :=
  if messages = [] then OpenResult.emptyStream
  else
    let formatted := formatMessagesForAnthropic messages
    if formatted = [] then OpenResult.noValidInput
    else OpenResult.opened formatted (createBedrockPayload formatted temperature maxTokens)

example : streamChatOpen [] (1/5) 500 = OpenResult.emptyStream := by decide

example : streamChatOpen [⟨none, some "hi"⟩] (1/5) 500 = OpenResult.noValidInput := by decide

/-! ## ClientError classification (`bedrock_client.py` 221–234) -/

/-- The message of the `BedrockStreamingError` raised for an AWS
`ClientError` with error code `code` and error message `msg`
(`bedrock_client.py` 221–234). -/
def classifyClientError (code msg : String) : String :=
  if code = "AccessDeniedException" then
    "Access denied to Bedrock model. Check your AWS permissions and model access."
  else if code = "ValidationException" then
    "Invalid request parameters: " ++ msg
  else if code = "ThrottlingException" then
    "Request rate limit exceeded. Please try again later."
  else
    "Bedrock API error: " ++ msg

/-! ## SSE Relay: `generate_chat_stream` (`main.py` 129–212) -/

/-- An outbound SSE event, as serialized by `format_sse_event` from the
pydantic models of `schemas.py`.  The heartbeat timestamp
(`current_time.isoformat()` in the code) is carried as the underlying
`Nat` clock value. -/
inductive SSEEvent where
  | token : String → SSEEvent
  | done : SSEEvent
  | error : (message : String) → (code : Option String) → SSEEvent
  | heartbeat : Nat → SSEEvent
deriving DecidableEq

/-- Whether an event is a `Token` event. -/
def SSEEvent.isToken : SSEEvent → Bool
  | SSEEvent.token _ => true
  | _ => false

/-- The `code` field of an error event (`none` for other events). -/
def SSEEvent.errCode : SSEEvent → Option String
  | SSEEvent.error _ c => c
  | _ => none

/-- The `message` field of an error event (`""` for other events). -/
def SSEEvent.errMessage : SSEEvent → String
  | SSEEvent.error m _ => m
  | _ => ""

/-- How the `stream_chat` generator ends when the relay loop pulls past
the last yielded chunk, mirroring the `except` clauses of
`generate_chat_stream` (`main.py` 178–212):

* `ok`: the generator is exhausted normally;
* `clientError`: `BedrockClientError` propagates;
* `streamingError m`: `BedrockStreamingError(m)` propagates;
* `validationError`: pydantic `ValidationError` propagates;
* `cancelled`: `asyncio.CancelledError` — no event is emitted;
* `unexpected`: any other exception. -/
inductive UpstreamOutcome where
  | ok : UpstreamOutcome
  | clientError : String → UpstreamOutcome
  | streamingError : String → UpstreamOutcome
  | validationError : UpstreamOutcome
  | cancelled : UpstreamOutcome
  | unexpected : String → UpstreamOutcome
deriving DecidableEq

/-- The event(s) emitted after the relay loop ends without a `break`:
the single `Done` on normal exhaustion (`main.py` 172–174), or the
single error event produced by the matching `except` clause
(`main.py` 178–212); cancellation emits nothing. -/
def terminalEvents : UpstreamOutcome → List SSEEvent
  | UpstreamOutcome.ok => [SSEEvent.done]
  | UpstreamOutcome.clientError _ =>
    [SSEEvent.error
      "Failed to connect to AI service. Please check your AWS configuration."
      (some "BEDROCK_CLIENT_ERROR")]
  | UpstreamOutcome.streamingError m =>
    [SSEEvent.error ("AI service error: " ++ m) (some "BEDROCK_STREAMING_ERROR")]
  | UpstreamOutcome.validationError =>
    [SSEEvent.error "Invalid request format. Please check your message format."
      (some "VALIDATION_ERROR")]
  | UpstreamOutcome.cancelled => []
  | UpstreamOutcome.unexpected _ =>
    [SSEEvent.error "An unexpected error occurred. Please try again."
      (some "INTERNAL_ERROR")]

/-- The single terminal SSE event the relay emits when the upstream
call fails with an AWS `ClientError` carrying error code `code` and
error message `msg`: `stream_chat` classifies it into a
`BedrockStreamingError` message (`bedrock_client.py` 221–234) and
`generate_chat_stream` wraps that into one SSE error event
(`main.py` 186–192). -/
def clientErrorSSE (code msg : String) : SSEEvent :=
  SSEEvent.error ("AI service error: " ++ classifyClientError code msg)
    (some "BEDROCK_STREAMING_ERROR")

/-- The `for text_chunk in stream_chat(...)` loop of
`generate_chat_stream` (`main.py` 146–170).  Arguments: `disc i` is the
result of `await http_request.is_disconnected()` on iteration `i`;
`clock i` the value of `datetime.now()` taken right after the token of
iteration `i` is yielded; the list holds the chunks the generator
yields in order; `i` the iteration index; `lastHb` the `last_heartbeat`
value (initially `datetime.now()` at generator start).

Returns `(events, broke, consumed)`: the events yielded inside the
loop, whether the loop exited via `break` (disconnect), and how many
chunks were pulled from the generator.  Per iteration, faithful to the
source: the chunk is pulled, then the disconnect check runs (`break` on
disconnect); a non-empty chunk is wrapped in a `Token` event; then, if
`(current_time - last_heartbeat).seconds >= 30`, a `Heartbeat` follows
the token and `last_heartbeat` is reset. -/
def relayLoop (disc : Nat → Bool) (clock : Nat → Nat) :
    List String → Nat → Nat → List SSEEvent × Bool × Nat
  | [], _, _ => ([], false, 0)
  | c :: rest, i, lastHb =>
    if disc i then ([], true, 1)
    else if c = "" then
      let r := relayLoop disc clock rest (i + 1) lastHb
      (r.1, r.2.1, r.2.2 + 1)
    else if 30 ≤ (clock i - lastHb) % 86400 then
      let r := relayLoop disc clock rest (i + 1) (clock i)
      (SSEEvent.token c :: SSEEvent.heartbeat (clock i) :: r.1, r.2.1, r.2.2 + 1)
    else
      let r := relayLoop disc clock rest (i + 1) lastHb
      (SSEEvent.token c :: r.1, r.2.1, r.2.2 + 1)

/-- The full outbound event sequence of one `generate_chat_stream`
session (`main.py` 129–212): the loop events, then — if the loop exited
via the disconnect `break` — the unconditional `Done` of lines 172–174,
otherwise the terminal event determined by how the generator ended.
`texts` are the chunks `stream_chat` yields, `t0` the start-of-stream
`last_heartbeat` value. -/
def relayEvents (texts : List String) (outcome : UpstreamOutcome)
    (disc : Nat → Bool) (clock : Nat → Nat) (t0 : Nat) : List SSEEvent :=
  let r := relayLoop disc clock texts 0 t0
  if r.2.1 then r.1 ++ [SSEEvent.done]
  else r.1 ++ terminalEvents outcome

example :
    relayEvents ["Hel", "lo"] UpstreamOutcome.ok (fun _ => false) (fun _ => 0) 0
      = [SSEEvent.token "Hel", SSEEvent.token "lo", SSEEvent.done] := by decide

example :
    relayEvents ["Hel", "lo"] UpstreamOutcome.ok (fun i => decide (1 ≤ i)) (fun _ => 0) 0
      = [SSEEvent.token "Hel", SSEEvent.done] := by decide

example :
    relayEvents ["a", "b"] UpstreamOutcome.ok (fun _ => false)
        (fun i => if i = 0 then 5 else 40) 0
      = [SSEEvent.token "a", SSEEvent.token "b", SSEEvent.heartbeat 40, SSEEvent.done] := by
  decide

/-! ## Request validation: `schemas.py` (`Message`, `ChatRequest`) -/

/-- `MessageRole` (`schemas.py` 8–12). -/
inductive Role where
  | system : Role
  | user : Role
  | assistant : Role
deriving DecidableEq

/-- A `Message` as submitted: a role from the enum (pydantic rejects
anything else at parse time) and a raw content string, before the
content validators run. -/
structure SchemaMessage where
  role : Role
  content : String
deriving DecidableEq

/-- The `Message.content` validation (`schemas.py` 17, 23–27):
`min_length=1`, `max_length=32000`, and the custom validator requiring
`v.strip()` to be non-empty — the strip result is non-empty exactly
when some character of the content is not whitespace. -/
def messageContentOk (s : String) : Bool :=
  1 ≤ s.length && s.length ≤ 32000 && s.data.any (fun c => !c.isWhitespace)

/-- The `ChatRequest.validate_messages` validator (`schemas.py`
36–46): the list must be non-empty and contain at least one message
with role `user`. -/
def validateMessages (msgs : List SchemaMessage) : Bool :=
  !msgs.isEmpty && msgs.any (fun m => m.role == Role.user)

/-- Full `ChatRequest` acceptance (`schemas.py` 29–46): the field
constraints `min_items=1`/`max_items=50` on `messages`, per-message
content validation, `0.0 ≤ temperature ≤ 1.0`,
`1 ≤ max_tokens ≤ 4096`, and the `validate_messages` validator. -/
def chatRequestValid (msgs : List SchemaMessage) (temperature : ℚ)
    (maxTokens : Int) : Bool :=
  1 ≤ msgs.length && msgs.length ≤ 50
    && msgs.all (fun m => messageContentOk m.content)
    && decide (0 ≤ temperature) && decide (temperature ≤ 1)
    && decide (1 ≤ maxTokens) && decide (maxTokens ≤ 4096)
    && validateMessages msgs

/-- The validation rules as the spec states them (§4.4: "message list
non-empty and ≤ a fixed cap (50), each content non-empty and ≤ a fixed
length cap (32000 characters), temperature/maxTokens within declared
ranges"), written from the spec's words for comparison with
`chatRequestValid`. -/
def specStatedValidation (msgs : List SchemaMessage) (temperature : ℚ)
    (maxTokens : Int) : Bool :=
  1 ≤ msgs.length && msgs.length ≤ 50
    && msgs.all (fun m => messageContentOk m.content)
    && decide (0 ≤ temperature) && decide (temperature ≤ 1)
    && decide (1 ≤ maxTokens) && decide (maxTokens ≤ 4096)

example : chatRequestValid [⟨Role.user, "Hello"⟩] 0 500 = true := by decide

example : chatRequestValid [⟨Role.system, "You are helpful."⟩] 0 500 = false := by
  decide

/-! ## Helper lemmas -/

/-- A block of well-formed content deltas decodes to its non-empty
texts, and decoding continues with the remaining frames. -/
theorem decodeLoop_map_delta (ts : List String) (rest : List RawFrame) :
    decodeLoop (ts.map deltaFrame ++ rest)
      = ts.filter (fun t => !(t == "")) ++ decodeLoop rest := by
  induction ts with
  | nil => simp
  | cons t ts ih =>
    by_cases h : t = ""
    · subst h
      simp [decodeLoop, deltaFrame, ih]
    · simp [decodeLoop, deltaFrame, ih, h]

/-- Every chunk the decoder yields is non-empty. -/
theorem decodeLoop_ne_empty (frames : List RawFrame) :
    ∀ s ∈ decodeLoop frames, s ≠ "" := by
  induction frames with
  | nil => simp [decodeLoop]
  | cons f rest ih =>
    cases f with
    | noChunk => simpa [decodeLoop] using ih
    | unparseable => simpa [decodeLoop] using ih
    | parsed c =>
      intro s hs
      simp only [decodeLoop] at hs
      split_ifs at hs with h1 h2 h3 h4 h5
      · exact ih s hs
      · rcases List.mem_cons.mp hs with h | h
        · subst h; exact h3
        · exact ih s h
      · exact ih s hs
      · simp at hs
      · exact ih s hs
      · exact ih s hs

/-- Events emitted inside the relay loop are only `Token`s with
non-empty text or `Heartbeat`s — never `Done` or `Error`. -/
theorem relayLoop_mem (disc : Nat → Bool) (clock : Nat → Nat) :
    ∀ (texts : List String) (i lastHb : Nat) (e : SSEEvent),
      e ∈ (relayLoop disc clock texts i lastHb).1 →
      (∃ t, t ≠ "" ∧ e = SSEEvent.token t) ∨ (∃ ts, e = SSEEvent.heartbeat ts) := by
  intro texts
  induction texts with
  | nil =>
    intro i hb e he
    simp [relayLoop] at he
  | cons c rest ih =>
    intro i hb e he
    simp only [relayLoop] at he
    split_ifs at he with h1 h2 h3
    · simp at he
    · exact ih (i + 1) hb e he
    · rcases List.mem_cons.mp he with h | h
      · exact Or.inl ⟨c, h2, h⟩
      · rcases List.mem_cons.mp h with h' | h'
        · exact Or.inr ⟨clock i, h'⟩
        · exact ih (i + 1) (clock i) e h'
    · rcases List.mem_cons.mp he with h | h
      · exact Or.inl ⟨c, h2, h⟩
      · exact ih (i + 1) hb e h

/-- With no downstream disconnect the loop never breaks. -/
theorem relayLoop_no_disc_broke (disc : Nat → Bool) (clock : Nat → Nat)
    (hd : ∀ j, disc j = false) :
    ∀ (texts : List String) (i lastHb : Nat),
      (relayLoop disc clock texts i lastHb).2.1 = false := by
  intro texts
  induction texts with
  | nil => intro i hb; simp [relayLoop]
  | cons c rest ih =>
    intro i hb
    by_cases hc : c = ""
    · simp [relayLoop, hd i, hc, ih]
    · by_cases hh : 30 ≤ (clock i - hb) % 86400
      · simp [relayLoop, hd i, hc, hh, ih]
      · simp [relayLoop, hd i, hc, hh, ih]

/-- With no downstream disconnect, the `Token` events of the relay loop
are exactly the non-empty chunks, wrapped in order. -/
theorem relayLoop_no_disc_tokens (disc : Nat → Bool) (clock : Nat → Nat)
    (hd : ∀ j, disc j = false) :
    ∀ (texts : List String) (i lastHb : Nat),
      (relayLoop disc clock texts i lastHb).1.filter SSEEvent.isToken
        = (texts.filter (fun t => !(t == ""))).map SSEEvent.token := by
  intro texts
  induction texts with
  | nil => intro i hb; simp [relayLoop]
  | cons c rest ih =>
    intro i hb
    by_cases hc : c = ""
    · simp [relayLoop, hd i, hc, ih]
    · by_cases hh : 30 ≤ (clock i - hb) % 86400
      · simp [relayLoop, hd i, hc, hh, SSEEvent.isToken, ih]
      · simp [relayLoop, hd i, hc, hh, SSEEvent.isToken, ih]

/-- If the first observed disconnect happens on iteration `k + i` (all
earlier checks returning `false`), the loop behaves exactly like the
loop over the first `i` chunks followed by a `break`: same events,
`broke = true`, and `i + 1` chunks pulled from the generator. -/
theorem relayLoop_disconnect (disc : Nat → Bool) (clock : Nat → Nat) :
    ∀ (texts : List String) (i k lastHb : Nat),
      i < texts.length → disc (k + i) = true →
      (∀ j, j < i → disc (k + j) = false) →
      relayLoop disc clock texts k lastHb
        = ((relayLoop disc clock (texts.take i) k lastHb).1, true, i + 1) := by
  intro texts
  induction texts with
  | nil =>
    intro i k hb hi
    simp at hi
  | cons c rest ih =>
    intro i k hb hi hd hj
    cases i with
    | zero =>
      have hk : disc k = true := by simpa using hd
      simp [relayLoop, hk]
    | succ s =>
      have hk : disc k = false := by simpa using hj 0 (Nat.succ_pos s)
      have hd' : disc (k + 1 + s) = true := by
        have he : k + 1 + s = k + (s + 1) := by omega
        rw [he]; exact hd
      have hj' : ∀ j, j < s → disc (k + 1 + j) = false := by
        intro j hjs
        have he : k + 1 + j = k + (j + 1) := by omega
        rw [he]; exact hj (j + 1) (by omega)
      have hi' : s < rest.length := by simpa using hi
      by_cases hc : c = ""
      · simp [relayLoop, hk, hc, ih s (k + 1) hb hi' hd' hj']
      · by_cases hh : 30 ≤ (clock k - hb) % 86400
        · simp [relayLoop, hk, hc, hh, ih s (k + 1) (clock k) hi' hd' hj']
        · simp [relayLoop, hk, hc, hh, ih s (k + 1) hb hi' hd' hj']

/-- Terminal events never include a heartbeat. -/
theorem heartbeat_not_terminal (outcome : UpstreamOutcome) (ts : Nat) :
    SSEEvent.heartbeat ts ∉ terminalEvents outcome := by
  cases outcome <;> simp [terminalEvents]

/-- If every clock reading stays within the 30-second heartbeat window
of `lastHb` (modulo the day-wrap of `timedelta.seconds`), the loop
emits no heartbeat. -/
theorem relayLoop_no_heartbeat (disc : Nat → Bool) (clock : Nat → Nat) :
    ∀ (texts : List String) (k lastHb : Nat),
      (∀ i, (clock i - lastHb) % 86400 < 30) →
      ∀ ts, SSEEvent.heartbeat ts ∉ (relayLoop disc clock texts k lastHb).1 := by
  intro texts
  induction texts with
  | nil =>
    intro k hb h ts
    simp [relayLoop]
  | cons c rest ih =>
    intro k hb h ts
    by_cases hd : disc k
    · simp [relayLoop, hd]
    · by_cases hc : c = ""
      · simpa [relayLoop, hd, hc] using ih (k + 1) hb h ts
      · have hh : ¬ 30 ≤ (clock k - hb) % 86400 := by
          have := h k
          omega
        simpa [relayLoop, hd, hc, hh] using ih (k + 1) hb h ts

/-- Terminal events never include a token. -/
theorem token_not_terminal (outcome : UpstreamOutcome) (s : String) :
    SSEEvent.token s ∉ terminalEvents outcome := by
  cases outcome <;> simp [terminalEvents]

/-- Every event of a session is either a loop event, the
post-loop `Done`, or a terminal event. -/
theorem relayEvents_mem (texts : List String) (outcome : UpstreamOutcome)
    (disc : Nat → Bool) (clock : Nat → Nat) (t0 : Nat) (e : SSEEvent) :
    e ∈ relayEvents texts outcome disc clock t0 →
    e ∈ (relayLoop disc clock texts 0 t0).1 ∨ e = SSEEvent.done
      ∨ e ∈ terminalEvents outcome := by
  intro he
  simp only [relayEvents] at he
  split at he <;> rcases List.mem_append.mp he with h | h
  · exact Or.inl h
  · simp at h
    exact Or.inr (Or.inl h)
  · exact Or.inl h
  · exact Or.inr (Or.inr h)

/-- With no downstream disconnect, the session is the loop events
followed by the terminal events. -/
theorem relayEvents_no_disc (texts : List String) (outcome : UpstreamOutcome)
    (disc : Nat → Bool) (clock : Nat → Nat) (t0 : Nat)
    (hd : ∀ j, disc j = false) :
    relayEvents texts outcome disc clock t0
      = (relayLoop disc clock texts 0 t0).1 ++ terminalEvents outcome := by
  simp [relayEvents, relayLoop_no_disc_broke disc clock hd texts 0 t0]

/-- Two strings whose first characters differ are distinct. -/
theorem ne_of_data_head (x y : String) (cx cy : Char)
    (hx : x.data.head? = some cx) (hy : y.data.head? = some cy)
    (hne : cx ≠ cy) : x ≠ y := by
  intro he
  subst he
  rw [hx] at hy
  exact hne (Option.some.inj hy)

/-- Appending preserves the first character of a non-empty string. -/
theorem data_head_append (p m : String) (c : Char)
    (hp : p.data.head? = some c) : (p ++ m).data.head? = some c := by
  rw [String.data_append]
  cases hd : p.data with
  | nil => rw [hd] at hp; simp at hp
  | cons a l =>
    rw [hd] at hp
    simp only [List.head?_cons, Option.some.injEq] at hp
    simp [hp]

/-- Appending the same string on the left preserves distinctness. -/
theorem append_left_ne (p : String) {x y : String} (h : x ≠ y) :
    p ++ x ≠ p ++ y := by
  intro he
  apply h
  have hd := congrArg String.data he
  rw [String.data_append, String.data_append] at hd
  have hc := List.append_cancel_left hd
  cases x
  cases y
  exact congrArg String.mk hc

/-! ## Claims -/

/-- Claim C6: for every (messages, temperature, max_tokens) input to
`_create_bedrock_payload`, the forwarded temperature is the requested
value clamped to `[0, 1]` and the forwarded max_tokens is the requested
value clamped to `[1, 4096]`; in particular temperature `-0.5` and
`1.7` are forwarded as `0.0` and `1.0`, and max_tokens `0` and `10000`
as `1` and `4096`.  The construction is a total function, so no input
is rejected. -/
theorem claim_C6_payload_clamping (msgs : List FormattedMessage) (t : ℚ) (m : Int) :
    ((createBedrockPayload msgs t m).temperature
        = if t < 0 then 0 else if 1 < t then 1 else t)
    ∧ ((createBedrockPayload msgs t m).maxTokens
        = if m < 1 then 1 else if 4096 < m then 4096 else m)
    ∧ 0 ≤ (createBedrockPayload msgs t m).temperature
    ∧ (createBedrockPayload msgs t m).temperature ≤ 1
    ∧ 1 ≤ (createBedrockPayload msgs t m).maxTokens
    ∧ (createBedrockPayload msgs t m).maxTokens ≤ 4096
    ∧ (createBedrockPayload msgs t m).messages = msgs
    ∧ (createBedrockPayload msgs (-(1 : ℚ) / 2) m).temperature = 0
    ∧ (createBedrockPayload msgs (17 / 10 : ℚ) m).temperature = 1
    ∧ (createBedrockPayload msgs t 0).maxTokens = 1
    ∧ (createBedrockPayload msgs t 10000).maxTokens = 4096 := by
  refine ⟨?_, ?_, ?_, ?_, ?_, ?_, ?_, ?_, ?_, ?_, ?_⟩
  · simp only [createBedrockPayload]
    split_ifs with h1 h2
    · rw [min_eq_right (by linarith), max_eq_left (by linarith)]
    · rw [min_eq_left (by linarith), max_eq_right (by norm_num)]
    · rw [min_eq_right (by linarith), max_eq_right (by linarith)]
  · simp only [createBedrockPayload]
    split_ifs with h1 h2
    · rw [min_eq_left (by omega), max_eq_left (by omega)]
    · rw [min_eq_right (by omega), max_eq_right (by omega)]
    · rw [min_eq_left (by omega), max_eq_right (by omega)]
  · exact le_max_left 0 _
  · exact max_le (by norm_num) (min_le_left 1 t)
  · exact le_max_left 1 _
  · exact max_le (by norm_num) (min_le_right m 4096)
  · rfl
  · simp only [createBedrockPayload]
    norm_num
  · simp only [createBedrockPayload]
    norm_num
  · simp only [createBedrockPayload]
    norm_num
  · simp only [createBedrockPayload]
    norm_num

/-- Claim C7: a raw frame that fails to parse produces no outbound
event and does not terminate decoding — the stream with the
unparseable frame removed decodes identically, and a valid content
delta following an unparseable frame still yields its text chunk. -/
theorem claim_C7_unparseable_skipped (fs gs : List RawFrame) :
    decodeLoop (fs ++ RawFrame.unparseable :: gs) = decodeLoop (fs ++ gs)
    ∧ ∀ t, t ≠ "" →
        decodeLoop (RawFrame.unparseable :: deltaFrame t :: gs)
          = t :: decodeLoop gs := by
  constructor
  · induction fs with
    | nil => simp [decodeLoop]
    | cons f fs ih =>
      cases f with
      | noChunk => simpa [decodeLoop] using ih
      | unparseable => simpa [decodeLoop] using ih
      | parsed c =>
        simp only [List.cons_append, decodeLoop]
        split_ifs <;> simp [ih]
  · intro t ht
    simp [decodeLoop, deltaFrame, ht]

/-- Witness for C7 at a concrete stream. -/
theorem claim_C7_witness :
    (decodeLoop ([deltaFrame "a"] ++ RawFrame.unparseable :: [deltaFrame "b"])
        = decodeLoop ([deltaFrame "a"] ++ [deltaFrame "b"]))
    ∧ decodeLoop (RawFrame.unparseable :: deltaFrame "c" :: [deltaFrame "b"])
        = "c" :: decodeLoop [deltaFrame "b"] :=
  ⟨(claim_C7_unparseable_skipped [deltaFrame "a"] [deltaFrame "b"]).1,
   (claim_C7_unparseable_skipped [deltaFrame "a"] [deltaFrame "b"]).2 "c" (by decide)⟩

/-- Claim C9: `ChatRequest` validation accepts a request only if some
message has role `user`; a request of well-formed messages with only
`system`/`assistant` roles passes every validation rule the spec
states (non-empty list, caps, parameter ranges) yet is rejected — the
code is strictly stricter than the spec's stated validation. -/
theorem claim_C9_user_role_required :
    (∀ (msgs : List SchemaMessage) (t : ℚ) (m : Int),
        chatRequestValid msgs t m = true →
        msgs.any (fun msg => msg.role == Role.user) = true)
    ∧ specStatedValidation
        [⟨Role.system, "You are a helpful assistant."⟩,
         ⟨Role.assistant, "Hello! How can I help?"⟩] 0 500 = true
    ∧ chatRequestValid
        [⟨Role.system, "You are a helpful assistant."⟩,
         ⟨Role.assistant, "Hello! How can I help?"⟩] 0 500 = false := by
  refine ⟨?_, by decide, by decide⟩
  intro msgs t m h
  simp only [chatRequestValid, validateMessages, Bool.and_eq_true] at h
  exact h.2.2

/-- Witness for C9 at a concrete accepted request. -/
theorem claim_C9_witness :
    chatRequestValid [⟨Role.user, "Hello"⟩] 0 500 = true
    ∧ List.any [(⟨Role.user, "Hello"⟩ : SchemaMessage)]
        (fun msg => msg.role == Role.user) = true :=
  ⟨by decide, claim_C9_user_role_required.1 [⟨Role.user, "Hello"⟩] 0 500 (by decide)⟩

/-- Claim C10: every `Token` event the relay emits carries non-empty
text (the relay only wraps truthy chunks), and every chunk the decoder
yields is non-empty (empty or absent delta text is dropped). -/
theorem claim_C10_tokens_nonempty :
    (∀ (texts : List String) (outcome : UpstreamOutcome) (disc : Nat → Bool)
        (clock : Nat → Nat) (t0 : Nat) (s : String),
        SSEEvent.token s ∈ relayEvents texts outcome disc clock t0 → s ≠ "")
    ∧ ∀ (frames : List RawFrame) (s : String), s ∈ decodeLoop frames → s ≠ "" := by
  constructor
  · intro texts outcome disc clock t0 s hs
    rcases relayEvents_mem texts outcome disc clock t0 _ hs with h | h | h
    · rcases relayLoop_mem disc clock texts 0 t0 _ h with ⟨u, hu, he⟩ | ⟨ts', he⟩
      · injection he with he'
        subst he'
        exact hu
      · exact absurd he (by simp)
    · exact absurd h (by simp)
    · exact absurd h (token_not_terminal outcome s)
  · intro frames s hs
    exact decodeLoop_ne_empty frames s hs

/-- Witness for C10 at a concrete session and stream. -/
theorem claim_C10_witness :
    (SSEEvent.token "Hi"
        ∈ relayEvents ["Hi"] UpstreamOutcome.ok (fun _ => false) (fun _ => 0) 0)
    ∧ ("Hi" ∈ decodeLoop [deltaFrame "Hi"])
    ∧ ("Hi" : String) ≠ "" :=
  ⟨by decide, by decide,
   claim_C10_tokens_nonempty.1 ["Hi"] UpstreamOutcome.ok (fun _ => false)
     (fun _ => 0) 0 "Hi" (by decide)⟩

/-- Claim C4 counterexample: for the empty input list, `stream_chat`
hits `if not messages: return` (`bedrock_client.py` 149–151) and
produces an empty stream with no error — it does not fail with a
backend error, refuting the claim for the "empty to begin with"
case it includes. -/
theorem claim_C4_counterexample :
    streamChatOpen [] 0 500 = OpenResult.emptyStream
    ∧ OpenResult.isBackendError (streamChatOpen [] 0 500) = false := by
  refine ⟨by decide, by decide⟩

/-- Claim C4 (amended): a *non-empty* message list that becomes empty
after filtering out malformed entries makes `stream_chat` fail with
`BedrockStreamingError('No valid messages provided')`; an input list
that is empty to begin with instead yields an empty stream with no
error. -/
theorem claim_C4_amended (messages : List RawMessage) (t : ℚ) (m : Int) :
    (messages ≠ [] → formatMessagesForAnthropic messages = [] →
      streamChatOpen messages t m = OpenResult.noValidInput)
    ∧ streamChatOpen [] t m = OpenResult.emptyStream := by
  constructor
  · intro hne hfmt
    simp [streamChatOpen, hne, hfmt]
  · simp [streamChatOpen]

/-- Witness for C4 at a concrete malformed, non-empty list. -/
theorem claim_C4_witness :
    ([(⟨none, some "hi"⟩ : RawMessage)] ≠ [])
    ∧ formatMessagesForAnthropic [⟨none, some "hi"⟩] = []
    ∧ streamChatOpen [⟨none, some "hi"⟩] 0 500 = OpenResult.noValidInput :=
  ⟨by decide, by decide,
   (claim_C4_amended [⟨none, some "hi"⟩] 0 500).1 (by decide) (by decide)⟩

/-- Claim C8 counterexample: an auth-denied upstream failure and a
throttled one are surfaced with the *same* `code` field
(`BEDROCK_STREAMING_ERROR`, hard-coded in `main.py` 186–192) — the
kinds are not distinguishable by the `code` field, refuting the
claim. -/
theorem claim_C8_counterexample :
    SSEEvent.errCode (clientErrorSSE "AccessDeniedException" "denied")
      = SSEEvent.errCode (clientErrorSSE "ThrottlingException" "slow down")
    ∧ SSEEvent.errCode (clientErrorSSE "AccessDeniedException" "denied")
      = some "BEDROCK_STREAMING_ERROR" := by
  refine ⟨by decide, by decide⟩

/-- Claim C8 (amended): each of the four upstream failure kinds (auth
denied, throttled, invalid request, unknown) is surfaced as a single
terminal error event that always carries the same stable code
`BEDROCK_STREAMING_ERROR`; the kinds are distinguishable only by their
human-readable messages, which are pairwise distinct. -/
theorem claim_C8_amended (m c : String)
    (hc1 : c ≠ "AccessDeniedException") (hc2 : c ≠ "ValidationException")
    (hc3 : c ≠ "ThrottlingException") :
    (SSEEvent.errCode (clientErrorSSE "AccessDeniedException" m)
        = some "BEDROCK_STREAMING_ERROR"
      ∧ SSEEvent.errCode (clientErrorSSE "ValidationException" m)
        = some "BEDROCK_STREAMING_ERROR"
      ∧ SSEEvent.errCode (clientErrorSSE "ThrottlingException" m)
        = some "BEDROCK_STREAMING_ERROR"
      ∧ SSEEvent.errCode (clientErrorSSE c m) = some "BEDROCK_STREAMING_ERROR")
    ∧ (terminalEvents (UpstreamOutcome.streamingError (classifyClientError c m))
        = [clientErrorSSE c m])
    ∧ SSEEvent.errMessage (clientErrorSSE "AccessDeniedException" m)
        ≠ SSEEvent.errMessage (clientErrorSSE "ValidationException" m)
    ∧ SSEEvent.errMessage (clientErrorSSE "AccessDeniedException" m)
        ≠ SSEEvent.errMessage (clientErrorSSE "ThrottlingException" m)
    ∧ SSEEvent.errMessage (clientErrorSSE "AccessDeniedException" m)
        ≠ SSEEvent.errMessage (clientErrorSSE c m)
    ∧ SSEEvent.errMessage (clientErrorSSE "ValidationException" m)
        ≠ SSEEvent.errMessage (clientErrorSSE "ThrottlingException" m)
    ∧ SSEEvent.errMessage (clientErrorSSE "ValidationException" m)
        ≠ SSEEvent.errMessage (clientErrorSSE c m)
    ∧ SSEEvent.errMessage (clientErrorSSE "ThrottlingException" m)
        ≠ SSEEvent.errMessage (clientErrorSSE c m) := by
  have hA : classifyClientError "AccessDeniedException" m
      = "Access denied to Bedrock model. Check your AWS permissions and model access." := by
    simp [classifyClientError]
  have hV : classifyClientError "ValidationException" m
      = "Invalid request parameters: " ++ m := by
    simp [classifyClientError]
  have hT : classifyClientError "ThrottlingException" m
      = "Request rate limit exceeded. Please try again later." := by
    simp [classifyClientError]
  have hU : classifyClientError c m = "Bedrock API error: " ++ m := by
    simp [classifyClientError, hc1, hc2, hc3]
  refine ⟨⟨rfl, rfl, rfl, rfl⟩, rfl, ?_, ?_, ?_, ?_, ?_, ?_⟩
  · simp only [clientErrorSSE, SSEEvent.errMessage, hA, hV]
    exact append_left_ne _ (ne_of_data_head _ _ 'A' 'I' (by decide)
      (data_head_append _ m 'I' (by decide)) (by decide))
  · simp only [clientErrorSSE, SSEEvent.errMessage, hA, hT]
    exact append_left_ne _ (by decide)
  · simp only [clientErrorSSE, SSEEvent.errMessage, hA, hU]
    exact append_left_ne _ (ne_of_data_head _ _ 'A' 'B' (by decide)
      (data_head_append _ m 'B' (by decide)) (by decide))
  · simp only [clientErrorSSE, SSEEvent.errMessage, hV, hT]
    exact append_left_ne _ (ne_of_data_head _ _ 'I' 'R'
      (data_head_append _ m 'I' (by decide)) (by decide) (by decide))
  · simp only [clientErrorSSE, SSEEvent.errMessage, hV, hU]
    exact append_left_ne _ (ne_of_data_head _ _ 'I' 'B'
      (data_head_append _ m 'I' (by decide))
      (data_head_append _ m 'B' (by decide)) (by decide))
  · simp only [clientErrorSSE, SSEEvent.errMessage, hT, hU]
    exact append_left_ne _ (ne_of_data_head _ _ 'R' 'B' (by decide)
      (data_head_append _ m 'B' (by decide)) (by decide))

/-- Witness for C8 at a concrete unknown error code. -/
theorem claim_C8_witness :
    (("ServiceUnavailable" : String) ≠ "AccessDeniedException")
    ∧ SSEEvent.errCode (clientErrorSSE "ServiceUnavailable" "oops")
        = some "BEDROCK_STREAMING_ERROR"
    ∧ SSEEvent.errMessage (clientErrorSSE "AccessDeniedException" "oops")
        ≠ SSEEvent.errMessage (clientErrorSSE "ServiceUnavailable" "oops") :=
  ⟨by decide,
   (claim_C8_amended "oops" "ServiceUnavailable" (by decide) (by decide)
     (by decide)).1.2.2.2,
   (claim_C8_amended "oops" "ServiceUnavailable" (by decide) (by decide)
     (by decide)).2.2.2.2.1⟩

/-- Claim C3: for an upstream stream of N non-empty content deltas
followed by `message_stop`, with no downstream disconnect and no
failure, the relay emits exactly the N `Token` events in decode order,
exactly one `Done`, the `Done` is the last event (nothing follows it),
and no `Error` event appears. -/
theorem claim_C3_n_tokens_then_done (ts : List String) (clock : Nat → Nat)
    (t0 : Nat) (h : ∀ t ∈ ts, t ≠ "") :
    (relayEvents (decodeLoop (ts.map deltaFrame ++ [stopFrame]))
        UpstreamOutcome.ok (fun _ => false) clock t0).filter SSEEvent.isToken
      = ts.map SSEEvent.token
    ∧ (relayEvents (decodeLoop (ts.map deltaFrame ++ [stopFrame]))
        UpstreamOutcome.ok (fun _ => false) clock t0).count SSEEvent.done = 1
    ∧ (relayEvents (decodeLoop (ts.map deltaFrame ++ [stopFrame]))
        UpstreamOutcome.ok (fun _ => false) clock t0).getLast?
      = some SSEEvent.done
    ∧ ∀ em ec, SSEEvent.error em ec
        ∉ relayEvents (decodeLoop (ts.map deltaFrame ++ [stopFrame]))
            UpstreamOutcome.ok (fun _ => false) clock t0 := by
  have hfalse : ∀ j, (fun _ : Nat => false) j = false := fun _ => rfl
  have hdec : decodeLoop (ts.map deltaFrame ++ [stopFrame]) = ts := by
    rw [decodeLoop_map_delta]
    have h1 : decodeLoop [stopFrame] = [] := by decide
    have h2 : ts.filter (fun t => !(t == "")) = ts :=
      List.filter_eq_self.mpr (fun a ha => by simpa using h a ha)
    rw [h1, h2, List.append_nil]
  have hevs : relayEvents (decodeLoop (ts.map deltaFrame ++ [stopFrame]))
      UpstreamOutcome.ok (fun _ => false) clock t0
      = (relayLoop (fun _ => false) clock ts 0 t0).1 ++ [SSEEvent.done] := by
    rw [hdec, relayEvents_no_disc _ _ _ _ _ hfalse]
    rfl
  have hloopdone : SSEEvent.done ∉ (relayLoop (fun _ => false) clock ts 0 t0).1 := by
    intro hmem
    rcases relayLoop_mem _ clock ts 0 t0 _ hmem with ⟨u, _, he⟩ | ⟨tp, he⟩ <;>
      simp at he
  refine ⟨?_, ?_, ?_, ?_⟩
  · rw [hevs, List.filter_append]
    have hd : List.filter SSEEvent.isToken [SSEEvent.done] = [] := by decide
    rw [hd, List.append_nil, relayLoop_no_disc_tokens _ _ hfalse,
      List.filter_eq_self.mpr (fun a ha => by simpa using h a ha)]
  · rw [hevs, List.count_append]
    rw [List.count_eq_zero.mpr hloopdone]
    rfl
  · rw [hevs]
    exact List.getLast?_concat _
  · intro em ec hmem
    rw [hevs] at hmem
    rcases List.mem_append.mp hmem with hm | hm
    · rcases relayLoop_mem _ clock ts 0 t0 _ hm with ⟨u, _, he⟩ | ⟨tp, he⟩ <;>
        simp at he
    · simp at hm

/-- Witness for C3 at a concrete two-delta stream. -/
theorem claim_C3_witness :
    (relayEvents (decodeLoop (["Hel", "lo"].map deltaFrame ++ [stopFrame]))
        UpstreamOutcome.ok (fun _ => false) (fun _ => 0) 0).filter SSEEvent.isToken
      = ["Hel", "lo"].map SSEEvent.token
    ∧ (relayEvents (decodeLoop (["Hel", "lo"].map deltaFrame ++ [stopFrame]))
        UpstreamOutcome.ok (fun _ => false) (fun _ => 0) 0).getLast?
      = some SSEEvent.done :=
  ⟨(claim_C3_n_tokens_then_done ["Hel", "lo"] (fun _ => 0) 0
      (by intro t ht; fin_cases ht <;> decide)).1,
   (claim_C3_n_tokens_then_done ["Hel", "lo"] (fun _ => 0) 0
      (by intro t ht; fin_cases ht <;> decide)).2.2.1⟩

/-- Claim C1 counterexample: `is_disconnected()` returns `true` on the
very first loop iteration, before any event has been emitted, so every
emitted event comes after the disconnect is observed — yet the session
still emits a `Done` event, because the `break` at `main.py` 152–154
falls through to the unconditional completion event at
`main.py` 172–174.  This refutes "no further Token, Error, or Done
events after the disconnect is observed". -/
theorem claim_C1_counterexample :
    relayEvents ["Hello"] UpstreamOutcome.ok (fun _ => true) (fun _ => 0) 0
      = [SSEEvent.done] := by
  decide

/-- Claim C1 (amended): once the disconnect is observed (first `true`
from `is_disconnected()`, on iteration `i`), the relay emits no further
`Token` or `Error` event and pulls no further chunk from the upstream
generator (exactly `i + 1` chunks are consumed, so the upstream stream
is released) — but one final `Done` event is still emitted after the
disconnect; no `Error` event appears anywhere in the session. -/
theorem claim_C1_amended (texts : List String) (outcome : UpstreamOutcome)
    (disc : Nat → Bool) (clock : Nat → Nat) (t0 i : Nat)
    (hi : i < texts.length) (hd : disc i = true)
    (hj : ∀ j, j < i → disc j = false) :
    relayEvents texts outcome disc clock t0
      = (relayLoop disc clock (List.take i texts) 0 t0).1 ++ [SSEEvent.done]
    ∧ (relayLoop disc clock texts 0 t0).2.2 = i + 1
    ∧ (∀ em ec, SSEEvent.error em ec ∉ relayEvents texts outcome disc clock t0)
    ∧ SSEEvent.done ∉ (relayLoop disc clock (List.take i texts) 0 t0).1 := by
  have hd0 : disc (0 + i) = true := by simpa using hd
  have hj0 : ∀ j, j < i → disc (0 + j) = false := by
    intro j hji
    simpa using hj j hji
  have key := relayLoop_disconnect disc clock texts i 0 t0 hi hd0 hj0
  have hevs : relayEvents texts outcome disc clock t0
      = (relayLoop disc clock (List.take i texts) 0 t0).1 ++ [SSEEvent.done] := by
    simp [relayEvents, key]
  refine ⟨hevs, ?_, ?_, ?_⟩
  · rw [key]
  · intro em ec hmem
    rw [hevs] at hmem
    rcases List.mem_append.mp hmem with hm | hm
    · rcases relayLoop_mem disc clock _ 0 t0 _ hm with ⟨u, _, he⟩ | ⟨tp, he⟩ <;>
        simp at he
    · simp at hm
  · intro hmem
    rcases relayLoop_mem disc clock _ 0 t0 _ hmem with ⟨u, _, he⟩ | ⟨tp, he⟩ <;>
      simp at he

/-- Witness for C1: the disconnect is first observed on iteration 2 of
a three-chunk session. -/
theorem claim_C1_witness :
    relayEvents ["a", "b", "c"] UpstreamOutcome.ok (fun j => decide (2 ≤ j))
        (fun _ => 0) 0
      = (relayLoop (fun j => decide (2 ≤ j)) (fun _ => 0)
          (List.take 2 ["a", "b", "c"]) 0 0).1 ++ [SSEEvent.done]
    ∧ (relayLoop (fun j => decide (2 ≤ j)) (fun _ => 0) ["a", "b", "c"] 0 0).2.2
      = 2 + 1 :=
  ⟨(claim_C1_amended ["a", "b", "c"] UpstreamOutcome.ok (fun j => decide (2 ≤ j))
      (fun _ => 0) 0 2 (by decide) (by decide)
      (by intro j hj; simp only [decide_eq_false_iff_not]; omega)).1,
   (claim_C1_amended ["a", "b", "c"] UpstreamOutcome.ok (fun j => decide (2 ≤ j))
      (fun _ => 0) 0 2 (by decide) (by decide)
      (by intro j hj; simp only [decide_eq_false_iff_not]; omega)).2.1⟩

/-- Claim C5 counterexample: two deltas arrive at t = 5 and t = 40
(35 seconds apart, more than 30); the session's only `Heartbeat`
appears *after* the second `Token`, not between the two `Token`
events, because the heartbeat check (`main.py` 162–167) runs only
after a token has been yielded.  No event at all sits between the two
tokens, refuting "at least one Heartbeat event appears between the two
corresponding Token events". -/
theorem claim_C5_counterexample :
    relayEvents ["a", "b"] UpstreamOutcome.ok (fun _ => false)
        (fun i => if i = 0 then 5 else 40) 0
      = [SSEEvent.token "a", SSEEvent.token "b", SSEEvent.heartbeat 40,
         SSEEvent.done] := by
  decide

/-- Claim C5 (amended): (1) in a session of two non-empty deltas more
than 30 seconds apart (monotone clock, session shorter than a day so
the `timedelta.seconds` day-wrap does not interfere), a `Heartbeat` is
emitted immediately *after* the second `Token` — not between the two
tokens; (2) in any session all of whose clock readings stay within one
second of the stream start, zero `Heartbeat` events are emitted. -/
theorem claim_C5_amended :
    (∀ (a b : String) (clock : Nat → Nat) (t0 : Nat),
        a ≠ "" → b ≠ "" → t0 ≤ clock 0 → clock 0 ≤ clock 1 →
        30 < clock 1 - clock 0 → clock 1 - t0 < 86400 →
        relayEvents [a, b] UpstreamOutcome.ok (fun _ => false) clock t0
          = (if 30 ≤ clock 0 - t0 then
               [SSEEvent.token a, SSEEvent.heartbeat (clock 0)]
             else [SSEEvent.token a])
            ++ [SSEEvent.token b, SSEEvent.heartbeat (clock 1), SSEEvent.done])
    ∧ ∀ (texts : List String) (outcome : UpstreamOutcome) (disc : Nat → Bool)
        (clock : Nat → Nat) (t0 : Nat),
        (∀ i, clock i - t0 ≤ 1) →
        ∀ tp, SSEEvent.heartbeat tp ∉ relayEvents texts outcome disc clock t0 := by
  constructor
  · intro a b clock t0 ha hb h0le h01 hgap hday
    have m0 : (clock 0 - t0) % 86400 = clock 0 - t0 := Nat.mod_eq_of_lt (by omega)
    have m1 : (clock 1 - clock 0) % 86400 = clock 1 - clock 0 :=
      Nat.mod_eq_of_lt (by omega)
    have m2 : (clock 1 - t0) % 86400 = clock 1 - t0 := Nat.mod_eq_of_lt (by omega)
    by_cases hc0 : 30 ≤ clock 0 - t0
    · have hc1 : 30 ≤ (clock 1 - clock 0) % 86400 := by
        rw [m1]
        omega
      simp [relayEvents, relayLoop, terminalEvents, ha, hb, m0, hc0, hc1]
    · have hc1 : 30 ≤ (clock 1 - t0) % 86400 := by
        rw [m2]
        omega
      simp [relayEvents, relayLoop, terminalEvents, ha, hb, m0, hc0, hc1]
  · intro texts outcome disc clock t0 hfast tp hmem
    have hwin : ∀ i, (clock i - t0) % 86400 < 30 := by
      intro i
      have h1 := hfast i
      have h2 : (clock i - t0) % 86400 ≤ clock i - t0 := Nat.mod_le _ _
      omega
    rcases relayEvents_mem texts outcome disc clock t0 _ hmem with h | h | h
    · exact relayLoop_no_heartbeat disc clock texts 0 t0 hwin tp h
    · simp at h
    · exact heartbeat_not_terminal outcome tp h

/-- Witness for C5: a concrete slow session (deltas at t = 0 and
t = 35) and a concrete fast session. -/
theorem claim_C5_witness :
    relayEvents ["x", "y"] UpstreamOutcome.ok (fun _ => false)
        (fun i => if i = 0 then 0 else 35) 0
      = (if 30 ≤ (fun i : Nat => if i = 0 then 0 else 35) 0 - 0 then
           [SSEEvent.token "x",
            SSEEvent.heartbeat ((fun i : Nat => if i = 0 then 0 else 35) 0)]
         else [SSEEvent.token "x"])
        ++ [SSEEvent.token "y",
            SSEEvent.heartbeat ((fun i : Nat => if i = 0 then 0 else 35) 1),
            SSEEvent.done]
    ∧ SSEEvent.heartbeat 0
        ∉ relayEvents ["x"] UpstreamOutcome.ok (fun _ => false) (fun _ => 0) 0 :=
  ⟨claim_C5_amended.1 "x" "y" (fun i => if i = 0 then 0 else 35) 0 (by decide)
     (by decide) (by decide) (by decide) (by decide) (by decide),
   claim_C5_amended.2 ["x"] UpstreamOutcome.ok (fun _ => false) (fun _ => 0) 0
     (by intro i; simp) 0⟩

/-- Claim C2, evaluated at the failing input: the upstream stream
yields a content delta "Hi", then an in-band error marker, then
`message_stop`.  The `raise BedrockStreamingError` for the error
marker (`bedrock_client.py` 206–209) is caught by the same `try`'s
`except Exception as e: continue` (`bedrock_client.py` 214–216), so
decoding continues, the generator ends normally at `message_stop`, and
the relay emits `Token "Hi"` followed by a `Done` — no `Error` event at
all, where the claim (and `stream_chat`'s own docstring, "Raises:
BedrockStreamingError: If streaming fails") requires exactly one
`Error` and never a `Done`. -/
theorem claim_C2_error_marker_swallowed :
    decodeLoop [deltaFrame "Hi", errorFrame "boom", stopFrame] = ["Hi"]
    ∧ relayEvents (decodeLoop [deltaFrame "Hi", errorFrame "boom", stopFrame])
        UpstreamOutcome.ok (fun _ => false) (fun _ => 0) 0
      = [SSEEvent.token "Hi", SSEEvent.done] := by
  refine ⟨by decide, by decide⟩

end RivaChat
